import Mathlib

/-!
Shallow embedding of the claims-pay processor (src/local_processor.py).

Numeric values that the Python program handles as IEEE floats (risk scores,
claim amounts, the 0.7 threshold and 0.98 payout rate) are embedded as exact
rationals.  The three external oracles — the NER pipeline, the ollama
generative endpoint, and the scikit-learn classifier's predict_proba — are
opaque to the program; each claim's environment carries their responses as
inputs (an entity list or an exception for the extractor, a free-form response
string or an exception for the generative oracle, and a probability for the
statistical classifier).
-/

namespace ClaimsPay

/-- Python substring test: the translation of the expression
`needle in hay` on strings (true iff needle occurs contiguously in hay). -/
def strContains (hay needle : String) : Bool :=
  (List.range (hay.data.length + 1)).any
    (fun i => needle.data.isPrefixOf (hay.data.drop i))

/-- Python `s.split()` with no argument: split on runs of whitespace,
discarding empty pieces (so an empty or all-blank string yields `[]`). -/
def pySplit (s : String) : List String :=
  (s.split Char.isWhitespace).filter (fun t => t ≠ "")

/-- `resp['response'].split()[0]` fetches the first whitespace-delimited
token; indexing an empty list raises in Python, embedded as `none`. -/
def firstToken (s : String) : Option String :=
  (pySplit s).head?

/-- Value of a digit string, most significant digit first. -/
def digitsVal (l : List Char) : Nat :=
  l.foldl (fun a c => a * 10 + (c.toNat - 48)) 0

/-- Exponent suffix of a Python float literal: an optional sign followed by
at least one digit, and nothing after it. -/
def pyFloatExp (sgn mantissa : ℚ) (r : List Char) : Option ℚ :=
  let hasSign := r.head? == some '-' || r.head? == some '+'
  let esgn : Int := if r.head? == some '-' then -1 else 1
  let r₁ := if hasSign then r.tail else r
  let ed := r₁.takeWhile Char.isDigit
  let rest := r₁.dropWhile Char.isDigit
  if ed.isEmpty || !rest.isEmpty then none
  else some (sgn * mantissa * (10 : ℚ) ^ (esgn * (digitsVal ed : Int)))

/-- Modelled from the Python builtin `float(token)` applied to the
whitespace-free token produced by `split()`: parses an optional sign, decimal
digits with an optional fractional part, and an optional decimal exponent,
returning the exact rational value, and `none` (Python: ValueError) when the
token is not such a literal.  The `inf`/`nan` spellings and underscore digit
separators Python also accepts are outside the behaviours exercised here. -/
def pyFloat (s : String) : Option ℚ :=
  let cs := s.data
  let hasSign := cs.head? == some '-' || cs.head? == some '+'
  let sgn : ℚ := if cs.head? == some '-' then -1 else 1
  let cs₁ := if hasSign then cs.tail else cs
  let ip := cs₁.takeWhile Char.isDigit
  let cs₂ := cs₁.dropWhile Char.isDigit
  let hasDot := cs₂.head? == some '.'
  let fp := if hasDot then cs₂.tail.takeWhile Char.isDigit else []
  let cs₃ := if hasDot then cs₂.tail.dropWhile Char.isDigit else cs₂
  if ip.isEmpty && fp.isEmpty then none
  else
    let mantissa : ℚ := (digitsVal ip : ℚ) + (digitsVal fp : ℚ) / ((10 : ℚ) ^ fp.length)
    if cs₃.isEmpty then some (sgn * mantissa)
    else if cs₃.head? == some 'e' || cs₃.head? == some 'E' then
      pyFloatExp sgn mantissa cs₃.tail
    else none

/-! ## LocalAutocoder -/

/-- A claim's assigned billing codes, `{"ICD": [...], "CPT": [...]}` in the
source; appended to in extraction order, duplicates permitted. -/
structure CodeSet where
  icd : List String
  cpt : List String
deriving DecidableEq

/-- `LocalAutocoder.code_map`: the static phrase-to-code dictionary, as an
association list in insertion order. -/
def code_map : List (String × String) :=
  [("diabetes", "E11.9"), ("blood test", "82947"), ("office visit", "99213")]

/-- The procedure keyword list `["test", "visit"]` of the `elif` branch. -/
def procVocab : List String := ["test", "visit"]

/-- Python `str.lower()` on one character, restricted to ASCII letters (the
vocabulary phrases and entity texts handled here are ASCII). -/
def lowerChar (c : Char) : Char :=
  if 65 ≤ c.toNat && c.toNat ≤ 90 then Char.ofNat (c.toNat + 32) else c

/-- Python `ent['word'].lower()` (ASCII case folding). -/
def pyLower (s : String) : String :=
  ⟨s.data.map lowerChar⟩

/-- `self.code_map.get(word, "Unmapped")`: exact-key dictionary lookup of the
whole lowercased entity text, with the sentinel as default. -/
def codeMapGet (word : String) : String :=
  (code_map.lookup word).getD "Unmapped"

/-- Loop body of `LocalAutocoder.autocode` for one extracted entity: lowercase
its text; if it contains any `code_map` key as a substring, append the exact
lookup (default "Unmapped") to ICD; else if it contains "test" or "visit",
append the exact lookup to CPT; otherwise drop the entity. -/
def mapEntity (codes : CodeSet) (entWord : String) : CodeSet :=
  let word := pyLower entWord
  if code_map.any (fun kv => strContains word kv.1) then
    { codes with icd := codes.icd ++ [codeMapGet word] }
  else if procVocab.any (fun p => strContains word p) then
    { codes with cpt := codes.cpt ++ [codeMapGet word] }
  else codes

/-- The NER oracle's behaviour on one claim text: the entity texts it returns
(the category field is ignored by `autocode`), or an exception. -/
inductive ExtractResult where
  | ok (words : List String)
  | raises
deriving DecidableEq

/-- `LocalAutocoder.autocode`: folds `mapEntity` over the extracted entities
starting from `{"ICD": [], "CPT": []}`; an extractor exception propagates
uncaught (no try/except anywhere on this path), embedded as `Except.error`. -/
def autocode (ext : ExtractResult) : Except Unit CodeSet :=
  match ext with
  | ExtractResult.raises => Except.error ()
  | ExtractResult.ok ws => Except.ok (ws.foldl mapEntity ⟨[], []⟩)

deriving instance DecidableEq for Except

/-! ## LocalRiskEngine -/

/-- The generative oracle's behaviour on one prompt: the free-form response
text of `ollama.generate`, or an exception (unreachable endpoint, timeout). -/
inductive OracleResult where
  | ok (response : String)
  | raises
deriving DecidableEq

/-- The `llm_score` computed inside `LocalRiskEngine.score`: the first
whitespace-delimited token of the oracle response parsed as a float.  The
bare `except:` catches every failure on this path — the oracle call raising,
indexing into an empty token list (empty or all-blank response), and an
unparsable token — and substitutes 0.5.  Note the parsed value is used as-is,
with no clamping to [0, 1]. -/
def llm_score (r : OracleResult) : ℚ :=
  match r with
  | OracleResult.raises => 1/2
  | OracleResult.ok s =>
    match firstToken s with
    | none => 1/2
    | some t =>
      match pyFloat t with
      | none => 1/2
      | some q => q

/-- The failing behaviours of the generative-oracle path: the call raises
(unreachable/timeout), the response has no token (empty/garbage whitespace),
or its first token is not a float literal. -/
def oracleFails (r : OracleResult) : Bool :=
  match r with
  | OracleResult.raises => true
  | OracleResult.ok s =>
    match firstToken s with
    | none => true
    | some t => (pyFloat t).isNone

/-- `LocalRiskEngine.score`: the final score is the unweighted arithmetic
mean `(llm_score + ml_score) / 2`.  The statistical sub-score `ml_score` is
`self.clf.predict_proba(features)[0][1]`, an opaque probability produced by
the scikit-learn classifier; it is carried as an input of the claim's
environment. -/
def riskScore (r : OracleResult) (ml_score : ℚ) : ℚ :=
  (llm_score r + ml_score) / 2

/-! ## LocalRiskEngine.__init__ / _train_mock_model

`__init__` builds a fresh (unfitted) TfidfVectorizer and a fresh
LogisticRegression, then: if `risk_model.pkl` exists it replaces only the
classifier by the loaded artifact; otherwise `_train_mock_model` fits the
vectorizer and the classifier on the fixed seed dataframe and dumps only the
classifier. -/

/-- Fitting state of the classifier after construction. -/
inductive ClfState where
  | fresh
  | loaded
  | seedTrained
deriving DecidableEq

/-- Fitting state of the TF-IDF vectorizer after construction. -/
inductive VecState where
  | unfitted
  | fittedOnSeed
deriving DecidableEq

/-- The artifact `joblib.dump(self.clf, 'risk_model.pkl')` writes: it holds
the classifier alone — `_train_mock_model` never persists the vectorizer. -/
structure PersistedModel where
  clf : ClfState
deriving DecidableEq

/-- The fixed seed dataframe of `_train_mock_model`:
(text, codes, paid) rows. -/
def seedData : List (String × String × Nat) :=
  [("diabetes check", "E11.9", 1), ("routine visit", "99213", 1),
   ("high risk procedure", "Unmapped", 0)]

/-- `LocalRiskEngine.__init__`: given the persisted state on disk (present or
absent), returns the (classifier, vectorizer) fitting states after
construction together with the persisted state afterwards. -/
def riskEngineInit (persisted : Option PersistedModel) :
    (ClfState × VecState) × Option PersistedModel :=
  match persisted with
  | some p => ((ClfState.loaded, VecState.unfitted), some p)
  | none => ((ClfState.seedTrained, VecState.fittedOnSeed),
             some ⟨ClfState.seedTrained⟩)

/-! ## simulate_payment -/

/-- One row the paid-claims CSV gains per Paid outcome (the wall-clock
`pd.Timestamp.now()` column is elided from the embedding). -/
structure LedgerRow where
  codes : CodeSet
  score : ℚ
  paid_amount : ℚ
  status : String
deriving DecidableEq

/-- `simulate_payment(coded_claim, score, claim_value)`: if `score > 0.7`,
compute `paid_amount = claim_value * 0.98`, append a Paid row to the CSV and
return `(True, paid_amount)`; otherwise return `(False, 0)` leaving the CSV
alone.  The CSV ledger is threaded explicitly as state. -/
def simulate_payment (coded_claim : CodeSet) (score claim_value : ℚ)
    (ledger : List LedgerRow) : (Bool × ℚ) × List LedgerRow :=
  if score > 7/10 then
    let paid_amount := claim_value * (98/100)
    ((true, paid_amount),
      ledger ++ [⟨coded_claim, score, paid_amount, "Paid"⟩])
  else ((false, 0), ledger)

/-! ## main: the batch loop -/

/-- The per-claim environment of one directory entry seen by `main`: the file
name from `os.listdir`, the text and value `parse_hl7_claim` yields for it,
and the three oracles' behaviours on this claim (NER entities, generative
response, statistical probability). -/
structure ClaimEnv where
  name : String
  text : String
  value : ℚ
  extract : ExtractResult
  oracle : OracleResult
  ml : ℚ
deriving DecidableEq

/-- The lines `main` prints: one per decided claim and the final
`Batch complete: ... rejections` summary line. -/
inductive OutputLine where
  | rejected (name : String) (score : ℚ)
  | paid (name : String) (codes : CodeSet) (score : ℚ) (amount : ℚ)
  | summary (rejections : Nat)
deriving DecidableEq

/-- Loop body of `main` over the directory listing, carrying the rejection
counter, the printed lines and the CSV ledger; an uncaught extractor
exception aborts the whole loop. -/
def runBatchLoop (files : List ClaimEnv) (rej : Nat) (out : List OutputLine)
    (led : List LedgerRow) :
    Except Unit (Nat × List OutputLine × List LedgerRow) :=
  match files with
  | [] => Except.ok (rej, out, led)
  | f :: rest =>
    if f.name.endsWith ".hl7" then
      match autocode f.extract with
      | Except.error e => Except.error e
      | Except.ok coded =>
        let score := riskScore f.oracle f.ml
        let pr := simulate_payment coded score f.value led
        if pr.1.1 then
          runBatchLoop rest rej
            (out ++ [OutputLine.paid f.name coded score pr.1.2]) pr.2
        else
          runBatchLoop rest (rej + 1)
            (out ++ [OutputLine.rejected f.name score]) pr.2
    else runBatchLoop rest rej out led

/-- `main`: runs the loop from zero state; when the batch completes, the
final summary line (holding the rejection counter and nothing else) is
printed after the per-claim lines.  An aborted batch yields `Except.error`,
which carries no output lines at all — in particular no summary. -/
def processBatch (files : List ClaimEnv) :
    Except Unit (Nat × List OutputLine) :=
  match runBatchLoop files 0 [] [] with
  | Except.error e => Except.error e
  | Except.ok (rej, out, _) =>
    Except.ok (rej, out ++ [OutputLine.summary rej])

/-! ## Spec-side definitions (for refinement claims)

These follow the spec's words, not the source, and exist to be compared
with the embedded code. -/

/-- Follows the spec's words (§3, §4.7): the summary the coordinator is said
to report, with both a total-claims field and a rejections field. -/
structure BatchSummary where
  total_claims : Nat
  rejections : Nat
deriving DecidableEq

/-- The directory entries `main` actually processes: those ending ".hl7". -/
def processedClaims (files : List ClaimEnv) : List ClaimEnv :=
  files.filter (fun f => f.name.endsWith ".hl7")

/-- Whether one processed claim ends Rejected: its final risk score is not
above the 0.7 threshold. -/
def claimRejected (f : ClaimEnv) : Bool :=
  !(decide (riskScore f.oracle f.ml > 7/10))

/-- Number of Rejected outcomes among the processed claims of a batch. -/
def specRejections (files : List ClaimEnv) : Nat :=
  ((processedClaims files).filter claimRejected).length

/-- Follows the spec's words (§4.7): the summary a batch should report —
total processed claims and rejection count. -/
def specBatchSummary (files : List ClaimEnv) : BatchSummary :=
  ⟨(processedClaims files).length, specRejections files⟩

/-- The final printed line of a completed batch (none if it aborted). -/
def summaryLine (files : List ClaimEnv) : Option OutputLine :=
  match processBatch files with
  | Except.ok (_, out) => out.getLast?
  | Except.error _ => none

/-! ## Concrete batches used by witnesses and counterexamples -/

/-- A claim that ends Paid: one "diabetes" entity, oracle answers "0.9",
statistical probability 0.9, so the final score is 0.9 > 0.7. -/
def claimPaidA : ClaimEnv :=
  ⟨"a.hl7", "diabetes check", 100, ExtractResult.ok ["diabetes"],
   OracleResult.ok "0.9", 9/10⟩

/-- A second Paid claim: an "office visit" entity, score 0.8. -/
def claimPaidB : ClaimEnv :=
  ⟨"b.hl7", "office visit", 50, ExtractResult.ok ["office visit"],
   OracleResult.ok "0.8", 8/10⟩

/-- A claim that ends Rejected: the generative oracle raises (so 0.5 is
substituted) and the statistical probability is 0.1, score 0.3 ≤ 0.7. -/
def claimRejC : ClaimEnv :=
  ⟨"c.hl7", "experimental therapy", 200, ExtractResult.ok [],
   OracleResult.raises, 1/10⟩

/-- A batch of three claims of which one is rejected. -/
def batchA : List ClaimEnv := [claimPaidA, claimPaidB, claimRejC]

/-- A batch of a single claim, rejected. -/
def batchB : List ClaimEnv := [claimRejC]

/-- A claim whose entity-extraction oracle raises. -/
def claimRaisesD : ClaimEnv :=
  ⟨"d.hl7", "corrupted note", 75, ExtractResult.raises,
   OracleResult.ok "0.9", 9/10⟩

/-! ## Helper lemmas -/

/-- Every string occurs in itself as a substring. -/
theorem strContains_self (s : String) : strContains s s = true := by
  unfold strContains
  rw [List.any_eq_true]
  exact ⟨0, List.mem_range.mpr (Nat.succ_pos _),
    by simp [List.isPrefixOf_iff_prefix]⟩

/-- A successful exact lookup implies the substring check of `mapEntity`
succeeds: the key found is a substring of the looked-up word itself. -/
theorem lookup_some_any_contains (m : List (String × String)) (w c : String)
    (h : m.lookup w = some c) :
    m.any (fun kv => strContains w kv.1) = true := by
  induction m with
  | nil => simp [List.lookup] at h
  | cons kv rest ih =>
    rw [List.any_cons]
    rcases hb : w == kv.1 with _ | _
    · have := ih (by simpa [List.lookup, hb] using h)
      simp [this]
    · have hw : w = kv.1 := eq_of_beq hb
      simp [hw, strContains_self]

/-- Contrapositive form: if no key of the map occurs in the word as a
substring, the exact lookup fails. -/
theorem any_contains_false_lookup_none (m : List (String × String))
    (w : String) (h : m.any (fun kv => strContains w kv.1) = false) :
    m.lookup w = none := by
  cases hl : m.lookup w with
  | none => rfl
  | some c => rw [lookup_some_any_contains m w c hl] at h; exact absurd h (by simp)

/-- The exact lookup with default only ever produces a value of the code map
or the sentinel. -/
theorem codeMapGet_mem (w : String) :
    codeMapGet w ∈ ["E11.9", "82947", "99213", "Unmapped"] := by
  unfold codeMapGet code_map
  rcases h1 : w == "diabetes" with _ | _ <;>
    rcases h2 : w == "blood test" with _ | _ <;>
      rcases h3 : w == "office visit" with _ | _ <;>
        simp [List.lookup, h1, h2, h3]

/-- Every code of `mapEntity cs w` is a code of `cs` or the exact-lookup
result for the lowercased word. -/
theorem mapEntity_codes_sub (cs : CodeSet) (w c : String)
    (hc : c ∈ (mapEntity cs w).icd ∨ c ∈ (mapEntity cs w).cpt) :
    (c ∈ cs.icd ∨ c ∈ cs.cpt) ∨ c = codeMapGet (pyLower w) := by
  simp only [mapEntity] at hc
  split_ifs at hc <;>
    rcases hc with hc | hc <;>
      (try simp only [List.mem_append, List.mem_singleton] at hc) <;>
        tauto

/-- The outcome bit of `simulate_payment` is exactly the threshold test. -/
theorem simulate_payment_fst (codes : CodeSet) (score value : ℚ)
    (ledger : List LedgerRow) :
    (simulate_payment codes score value ledger).1.1 = decide (score > 7/10) := by
  unfold simulate_payment
  split_ifs with h <;> simp [h]

/-- The batch loop never looks at a directory entry whose name does not end
in ".hl7": the loop over any listing equals the loop over its ".hl7"
entries, whatever the accumulated state. -/
theorem runBatchLoop_filter (files : List ClaimEnv) :
    ∀ rej out led, runBatchLoop files rej out led =
      runBatchLoop (processedClaims files) rej out led := by
  induction files with
  | nil => intro rej out led; rfl
  | cons f rest ih =>
    intro rej out led
    by_cases h : f.name.endsWith ".hl7" = true
    · have hp : processedClaims (f :: rest) = f :: processedClaims rest := by
        simp [processedClaims, List.filter_cons, h]
      rw [hp]
      simp only [runBatchLoop, h, if_true]
      cases autocode f.extract with
      | error e => rfl
      | ok coded => dsimp only; split_ifs <;> exact ih _ _ _
    · have hp : processedClaims (f :: rest) = processedClaims rest := by
        simp [processedClaims, List.filter_cons, h]
      rw [hp]
      simp only [runBatchLoop, h, if_false]
      exact ih _ _ _

/-- If some processed entry's extractor raises, the loop aborts with the
uncaught exception, whatever the accumulated state. -/
theorem runBatchLoop_raises (files : List ClaimEnv) (f : ClaimEnv)
    (hf : f ∈ files) (h7 : f.name.endsWith ".hl7" = true)
    (hr : f.extract = ExtractResult.raises) :
    ∀ rej out led, runBatchLoop files rej out led = Except.error () := by
  induction files with
  | nil => cases hf
  | cons g rest ih =>
    intro rej out led
    rcases List.mem_cons.mp hf with rfl | hf'
    · simp only [runBatchLoop, h7, if_true, hr]
      rfl
    · by_cases hg : g.name.endsWith ".hl7" = true
      · simp only [runBatchLoop, hg, if_true]
        cases autocode g.extract with
        | error e => rfl
        | ok coded => dsimp only; split_ifs <;> exact ih hf' _ _ _
      · simp only [runBatchLoop, hg, if_false]
        exact ih hf' _ _ _

/-- Unfolding of the rejection count over one directory entry. -/
theorem specRejections_cons (f : ClaimEnv) (rest : List ClaimEnv) :
    specRejections (f :: rest) =
      (if f.name.endsWith ".hl7" && claimRejected f then 1 else 0) +
        specRejections rest := by
  unfold specRejections processedClaims
  rcases h1 : f.name.endsWith ".hl7" with _ | _ <;>
    rcases h2 : claimRejected f with _ | _ <;>
      (simp [List.filter_cons, h1, h2]; try omega)

/-- The loop's rejection counter on a completed batch: it ends at its start
value plus one per Rejected outcome among the processed entries. -/
theorem runBatchLoop_count (files : List ClaimEnv) :
    ∀ rej out led rej' out' led',
      runBatchLoop files rej out led = Except.ok (rej', out', led') →
      rej' = rej + specRejections files := by
  induction files with
  | nil =>
    intro rej out led rej' out' led' h
    simp only [runBatchLoop] at h
    obtain ⟨h1, _, _⟩ := Prod.mk.injEq .. ▸ (Except.ok.inj h)
    simp [specRejections, processedClaims, ← h1]
  | cons f rest ih =>
    intro rej out led rej' out' led' h
    rw [specRejections_cons]
    by_cases hf : f.name.endsWith ".hl7" = true
    · simp only [runBatchLoop, hf, if_true] at h
      cases hac : autocode f.extract with
      | error e => rw [hac] at h; cases h
      | ok coded =>
        rw [hac] at h
        simp only [simulate_payment_fst] at h
        by_cases hs : riskScore f.oracle f.ml > 7/10
        · rw [if_pos (by simpa using hs)] at h
          have := ih _ _ _ _ _ _ h
          have hrj : claimRejected f = false := by
            simp [claimRejected, hs]
          simp [hf, hrj, this]
        · rw [if_neg (by simpa using hs)] at h
          have := ih _ _ _ _ _ _ h
          have hrj : claimRejected f = true := by
            simp [claimRejected, hs]
          simp [hf, hrj, this]
          omega
    · simp only [runBatchLoop, hf, if_false] at h
      have := ih _ _ _ _ _ _ h
      simp [hf, this]

/-- Invariant of the `autocode` fold: starting from a state whose codes are
all in the allowed set, every code of the result is allowed. -/
theorem foldl_mapEntity_mem (ws : List String) (cs : CodeSet)
    (hinv : ∀ c, c ∈ cs.icd ∨ c ∈ cs.cpt →
      c ∈ ["E11.9", "82947", "99213", "Unmapped"]) :
    ∀ c, c ∈ (ws.foldl mapEntity cs).icd ∨ c ∈ (ws.foldl mapEntity cs).cpt →
      c ∈ ["E11.9", "82947", "99213", "Unmapped"] := by
  induction ws generalizing cs with
  | nil => simpa using hinv
  | cons w rest ih =>
    intro c hc
    refine ih (mapEntity cs w) ?_ c (by simpa using hc)
    intro d hd
    rcases mapEntity_codes_sub cs w d hd with hd' | hd'
    · exact hinv d hd'
    · rw [hd']; exact codeMapGet_mem _

/-! ## Claim theorems -/

/-- Claim C1: for every score and every claim_value ≥ 0, `simulate_payment`
pays iff score > 0.7 (strictly, so score = 0.7 is Rejected); when it pays the
amount is claim_value * 0.98, otherwise the claim is Rejected with amount 0. -/
theorem settlement_threshold_strict (codes : CodeSet) (score claim_value : ℚ)
    (ledger : List LedgerRow) (_hv : 0 ≤ claim_value) :
    ((simulate_payment codes score claim_value ledger).1.1 = true ↔
      score > 7/10) ∧
    (score > 7/10 →
      (simulate_payment codes score claim_value ledger).1.2 =
        claim_value * (98/100)) ∧
    (score ≤ 7/10 →
      (simulate_payment codes score claim_value ledger).1.1 = false ∧
      (simulate_payment codes score claim_value ledger).1.2 = 0) := by
  by_cases h : score > 7/10
  · refine ⟨by simp [simulate_payment, h], fun _ => by simp [simulate_payment, h],
      fun hle => absurd h (not_lt.mpr hle)⟩
  · refine ⟨by simp [simulate_payment, h], fun hgt => absurd hgt h,
      fun _ => ⟨by simp [simulate_payment, h], by simp [simulate_payment, h]⟩⟩

/-- Witness for C1 at score 0.8 and claim_value 100. -/
theorem settlement_threshold_strict_witness :
    (0 : ℚ) ≤ 100 ∧
    (((simulate_payment ⟨[], []⟩ (8/10) 100 []).1.1 = true ↔
       (8/10 : ℚ) > 7/10) ∧
     ((8/10 : ℚ) > 7/10 →
       (simulate_payment ⟨[], []⟩ (8/10) 100 []).1.2 = 100 * (98/100)) ∧
     ((8/10 : ℚ) ≤ 7/10 →
       (simulate_payment ⟨[], []⟩ (8/10) 100 []).1.1 = false ∧
       (simulate_payment ⟨[], []⟩ (8/10) 100 []).1.2 = 0)) :=
  ⟨by norm_num, settlement_threshold_strict ⟨[], []⟩ (8/10) 100 [] (by norm_num)⟩

/-- Claim C2, counterexample: the generative sub-score is not clamped to
[0,1].  When the oracle answers "5.0 out of 5" the parsed sub-score is 5 and
the final score (5 + 0.9)/2 = 2.95 lies outside [0,1], although the
statistical sub-score 0.9 is a genuine probability.  This refutes the claim
that each sub-score, and hence the final score, always lies in [0,1]. -/
theorem risk_engine_bounds_counterexample :
    llm_score (OracleResult.ok "5.0 out of 5") = 5 ∧
    ¬(llm_score (OracleResult.ok "5.0 out of 5") ≤ 1) ∧
    (0 : ℚ) ≤ 9/10 ∧ (9/10 : ℚ) ≤ 1 ∧
    riskScore (OracleResult.ok "5.0 out of 5") (9/10) = 59/20 ∧
    ¬(riskScore (OracleResult.ok "5.0 out of 5") (9/10) ≤ 1) := by
  with_unfolding_all decide

/-- Claim C2, amended: the final score is the unweighted arithmetic mean of
the generative and statistical sub-scores; the statistical sub-score is a
probability in [0,1], but the generative sub-score is the raw parsed first
token, unclamped; whenever it does lie in [0,1], the final score lies
in [0,1]. -/
theorem risk_engine_mean_amended (r : OracleResult) (ml : ℚ)
    (hml0 : 0 ≤ ml) (hml1 : ml ≤ 1) :
    riskScore r ml = (llm_score r + ml) / 2 ∧
    (0 ≤ llm_score r → llm_score r ≤ 1 →
      0 ≤ riskScore r ml ∧ riskScore r ml ≤ 1) := by
  refine ⟨rfl, fun h0 h1 => ⟨?_, ?_⟩⟩ <;> unfold riskScore <;> linarith

/-- Witness for the amended C2 at a failing oracle (sub-score 0.5) and
statistical probability 0.9. -/
theorem risk_engine_mean_amended_witness :
    (0 : ℚ) ≤ 9/10 ∧ (9/10 : ℚ) ≤ 1 ∧
    0 ≤ llm_score OracleResult.raises ∧ llm_score OracleResult.raises ≤ 1 ∧
    (0 ≤ riskScore OracleResult.raises (9/10) ∧
      riskScore OracleResult.raises (9/10) ≤ 1) :=
  ⟨by norm_num, by norm_num, by with_unfolding_all decide,
   by with_unfolding_all decide,
   (risk_engine_mean_amended OracleResult.raises (9/10) (by norm_num)
       (by norm_num)).2
     (by with_unfolding_all decide) (by with_unfolding_all decide)⟩

/-- Claim C3, counterexample: the entity text "diabetes mellitus" contains
the known phrase "diabetes" (mapped to "E11.9") as a substring, yet the
mapper appends the sentinel "Unmapped", because the dictionary lookup
`code_map.get(word, "Unmapped")` uses the whole entity text as an exact
key.  This refutes both directions of the claim: containing a known phrase
does not yield that phrase's code, and "Unmapped" is produced for a text
that does contain a known phrase. -/
theorem code_mapper_substring_counterexample :
    strContains "diabetes mellitus" "diabetes" = true ∧
    code_map.lookup "diabetes" = some "E11.9" ∧
    mapEntity ⟨[], []⟩ "diabetes mellitus" = ⟨["Unmapped"], []⟩ ∧
    "Unmapped" ≠ "E11.9" := by
  with_unfolding_all decide

/-- Claim C3, amended: the mapper appends the mapped code only when the
lowercased entity text is exactly a key of the code map; when the text merely
contains a known phrase as a substring without being a key it appends the
sentinel "Unmapped" (to ICD); when it contains no known phrase but contains
"test" or "visit" it appends "Unmapped" to CPT; otherwise the entity is
dropped. -/
theorem code_mapper_exact_match_amended (cs : CodeSet) (w : String) :
    (∀ c, code_map.lookup (pyLower w) = some c →
      mapEntity cs w = ⟨cs.icd ++ [c], cs.cpt⟩) ∧
    (code_map.any (fun kv => strContains (pyLower w) kv.1) = true →
      code_map.lookup (pyLower w) = none →
      mapEntity cs w = ⟨cs.icd ++ ["Unmapped"], cs.cpt⟩) ∧
    (code_map.any (fun kv => strContains (pyLower w) kv.1) = false →
      procVocab.any (fun p => strContains (pyLower w) p) = true →
      mapEntity cs w = ⟨cs.icd, cs.cpt ++ ["Unmapped"]⟩) ∧
    (code_map.any (fun kv => strContains (pyLower w) kv.1) = false →
      procVocab.any (fun p => strContains (pyLower w) p) = false →
      mapEntity cs w = cs) := by
  refine ⟨?_, ?_, ?_, ?_⟩
  · intro c hl
    have hany := lookup_some_any_contains _ _ _ hl
    simp [mapEntity, hany, codeMapGet, hl]
  · intro hany hl
    simp [mapEntity, hany, codeMapGet, hl]
  · intro hany hproc
    have hl := any_contains_false_lookup_none _ _ hany
    simp [mapEntity, hany, hproc, codeMapGet, hl]
  · intro hany hproc
    simp [mapEntity, hany, hproc]

/-- Witness for the amended C3: an exact key yields its code, a strict
superstring of a key yields the sentinel. -/
theorem code_mapper_exact_match_amended_witness :
    mapEntity ⟨[], []⟩ "diabetes" = ⟨[] ++ ["E11.9"], []⟩ ∧
    mapEntity ⟨[], []⟩ "diabetes mellitus" = ⟨[] ++ ["Unmapped"], []⟩ :=
  ⟨(code_mapper_exact_match_amended ⟨[], []⟩ "diabetes").1 "E11.9"
     (by with_unfolding_all decide),
   (code_mapper_exact_match_amended ⟨[], []⟩ "diabetes mellitus").2.1
     (by with_unfolding_all decide) (by with_unfolding_all decide)⟩

/-- Claim C4: on every failing behaviour of the generative oracle — the call
raising (unreachable, timeout), an empty or all-blank response, or a first
token that is no float literal — the assessment substitutes the neutral 0.5.
It never raises to the caller: `llm_score` is a total function of the oracle
outcome, mirroring the bare `except:` that catches everything on this path. -/
theorem generative_failure_neutral (r : OracleResult)
    (h : oracleFails r = true) : llm_score r = 1/2 := by
  cases r with
  | raises => rfl
  | ok s =>
    simp only [oracleFails] at h
    simp only [llm_score]
    cases hft : firstToken s with
    | none => simp [hft]
    | some t =>
      simp only [hft] at h ⊢
      cases hp : pyFloat t with
      | none => simp [hp]
      | some q => simp [hp] at h

/-- Witness for C4 at the three simulated failures of the spec: raised
exception, empty response, garbage response. -/
theorem generative_failure_neutral_witness :
    oracleFails OracleResult.raises = true ∧
    oracleFails (OracleResult.ok "") = true ∧
    oracleFails (OracleResult.ok "the risk is high") = true ∧
    llm_score OracleResult.raises = 1/2 ∧
    llm_score (OracleResult.ok "") = 1/2 ∧
    llm_score (OracleResult.ok "the risk is high") = 1/2 :=
  ⟨rfl, by with_unfolding_all decide, by with_unfolding_all decide,
   generative_failure_neutral _ rfl,
   generative_failure_neutral _ (by with_unfolding_all decide),
   generative_failure_neutral _ (by with_unfolding_all decide)⟩

/-- Claim C5 (code bug): evaluation of `LocalRiskEngine.__init__` at the
failing input "persisted model present" (any run after the first).  Only the
classifier is restored; the vectorizer stays in its fresh unfitted state —
and the persisted artifact (by its very shape) never contains a vectorizer,
because `_train_mock_model` dumps `self.clf` alone.  The claim that both the
classifier and the vectorizer are loaded from persisted state is therefore
false on the code; `score()` then calls `transform` on the unfitted
vectorizer, which fails the batch. -/
theorem vectorizer_not_restored :
    (riskEngineInit (some ⟨ClfState.seedTrained⟩)).1.2 = VecState.unfitted ∧
    (riskEngineInit (some ⟨ClfState.seedTrained⟩)).1.1 = ClfState.loaded ∧
    (riskEngineInit none).1 = (ClfState.seedTrained, VecState.fittedOnSeed) ∧
    (riskEngineInit none).2 = some ⟨ClfState.seedTrained⟩ :=
  ⟨rfl, rfl, rfl, rfl⟩

/-- Claim C6, counterexample: the completed batch `batchA` processes three
claims with one rejection and the completed batch `batchB` processes one
claim with one rejection, yet the final summary line the code prints is the
same object for both — it holds the rejection counter and nothing else, so
the reported summary cannot contain total_claims as the claim states. -/
theorem batch_summary_counterexample :
    specBatchSummary batchA = ⟨3, 1⟩ ∧
    specBatchSummary batchB = ⟨1, 1⟩ ∧
    summaryLine batchA = some (OutputLine.summary 1) ∧
    summaryLine batchB = some (OutputLine.summary 1) := by
  with_unfolding_all decide

/-- Claim C6, amended: on every batch processed to completion the rejection
counter is incremented exactly once per Rejected outcome, and the final
reported summary line carries that rejection count only — the number of
claims processed is not part of the report. -/
theorem batch_reports_only_rejections_amended (files : List ClaimEnv)
    (rej : Nat) (out : List OutputLine)
    (h : processBatch files = Except.ok (rej, out)) :
    rej = specRejections files ∧
    out.getLast? = some (OutputLine.summary rej) := by
  unfold processBatch at h
  cases hrl : runBatchLoop files 0 [] [] with
  | error e => rw [hrl] at h; cases h
  | ok trip =>
    obtain ⟨rej0, out0, led0⟩ := trip
    rw [hrl] at h
    simp only [Except.ok.injEq, Prod.mk.injEq] at h
    obtain ⟨hrej, hout⟩ := h
    have hcount := runBatchLoop_count files 0 [] [] rej0 out0 led0 hrl
    subst hrej
    constructor
    · simpa using hcount
    · rw [← hout]
      exact List.getLast?_concat _

/-- Witness for the amended C6 on the three-claim batch with one rejection. -/
theorem batch_reports_only_rejections_amended_witness :
    1 = specRejections batchA ∧
    ([OutputLine.paid "a.hl7" ⟨["E11.9"], []⟩ (9/10) 98,
      OutputLine.paid "b.hl7" ⟨["99213"], []⟩ (8/10) 49,
      OutputLine.rejected "c.hl7" (3/10),
      OutputLine.summary 1] : List OutputLine).getLast? =
      some (OutputLine.summary 1) :=
  batch_reports_only_rejections_amended batchA 1
    [OutputLine.paid "a.hl7" ⟨["E11.9"], []⟩ (9/10) 98,
     OutputLine.paid "b.hl7" ⟨["99213"], []⟩ (8/10) 49,
     OutputLine.rejected "c.hl7" (3/10),
     OutputLine.summary 1]
    (by with_unfolding_all decide)

/-- Claim C7, counterexample: `simulate_payment` is not free of side effects
beyond returning the outcome — on a Paid decision it appends a row to the
paid-claims CSV itself, so persistence happens inside the settlement
decision, not in an external collaborator. -/
theorem settlement_side_effect_counterexample :
    (simulate_payment ⟨["E11.9"], []⟩ (8/10) 100 []).2 =
      [⟨⟨["E11.9"], []⟩, 8/10, 98, "Paid"⟩] ∧
    (simulate_payment ⟨["E11.9"], []⟩ (8/10) 100 []).2 ≠ [] := by
  with_unfolding_all decide

/-- Claim C7, amended: the returned outcome of `simulate_payment` depends
only on score and claim_value (never on the ledger's prior state), the
Rejected path leaves the ledger untouched, and the Paid path's only side
effect is appending exactly one Paid row to the ledger. -/
theorem settlement_ledger_effect_amended (codes : CodeSet)
    (score claim_value : ℚ) (ledger : List LedgerRow) :
    (simulate_payment codes score claim_value ledger).1 =
      (simulate_payment codes score claim_value []).1 ∧
    (score ≤ 7/10 →
      (simulate_payment codes score claim_value ledger).2 = ledger) ∧
    (score > 7/10 →
      (simulate_payment codes score claim_value ledger).2 =
        ledger ++ [⟨codes, score, claim_value * (98/100), "Paid"⟩]) := by
  by_cases h : score > 7/10
  · exact ⟨by simp [simulate_payment, h],
      fun hle => absurd h (not_lt.mpr hle),
      fun _ => by simp [simulate_payment, h]⟩
  · exact ⟨by simp [simulate_payment, h],
      fun _ => by simp [simulate_payment, h],
      fun hgt => absurd hgt h⟩

/-- Witness for the amended C7: a rejected score leaves an empty ledger
empty; a paid score appends the one row. -/
theorem settlement_ledger_effect_amended_witness :
    (simulate_payment ⟨[], []⟩ (3/10) 200 []).2 = ([] : List LedgerRow) ∧
    (simulate_payment ⟨[], []⟩ (8/10) 100 []).2 =
      [] ++ [⟨⟨[], []⟩, 8/10, 100 * (98/100), "Paid"⟩] :=
  ⟨(settlement_ledger_effect_amended ⟨[], []⟩ (3/10) 200 []).2.1 (by norm_num),
   (settlement_ledger_effect_amended ⟨[], []⟩ (8/10) 100 []).2.2 (by norm_num)⟩

/-- Claim C8: when the entity-extraction oracle raises on a processed claim,
the exception propagates out of `autocode` (first conjunct is the batch, the
second the Autocoder) and out of the batch loop: the whole batch aborts with
the error, whose result carries no output lines — in particular no final
summary. -/
theorem extraction_failure_aborts_batch (files : List ClaimEnv)
    (f : ClaimEnv) (hf : f ∈ files) (h7 : f.name.endsWith ".hl7" = true)
    (hr : f.extract = ExtractResult.raises) :
    processBatch files = Except.error () ∧
    autocode ExtractResult.raises = Except.error () := by
  refine ⟨?_, rfl⟩
  unfold processBatch
  rw [runBatchLoop_raises files f hf h7 hr 0 [] []]

/-- Witness for C8: a batch holding one good claim and one whose extractor
raises aborts with no summary. -/
theorem extraction_failure_aborts_batch_witness :
    processBatch [claimPaidA, claimRaisesD] = Except.error () ∧
    autocode ExtractResult.raises = Except.error () :=
  extraction_failure_aborts_batch [claimPaidA, claimRaisesD] claimRaisesD
    (by with_unfolding_all decide) (by with_unfolding_all decide) rfl

/-- Claim C9: every string `autocode` ever puts into a CodeSet — in the ICD
list or the CPT list — is one of the code map's values "E11.9", "82947",
"99213" or the sentinel "Unmapped"; no other string appears, whatever
entities the extractor returns. -/
theorem codeset_codes_invariant (ws : List String) (cs : CodeSet)
    (h : autocode (ExtractResult.ok ws) = Except.ok cs) (c : String)
    (hc : c ∈ cs.icd ∨ c ∈ cs.cpt) :
    c ∈ ["E11.9", "82947", "99213", "Unmapped"] := by
  have hcs : ws.foldl mapEntity ⟨[], []⟩ = cs := by
    simpa [autocode] using h
  rw [← hcs] at hc
  exact foldl_mapEntity_mem ws ⟨[], []⟩ (by simp) c hc

/-- Witness for C9 on a batch of one "diabetes" entity. -/
theorem codeset_codes_invariant_witness :
    "E11.9" ∈ ["E11.9", "82947", "99213", "Unmapped"] :=
  codeset_codes_invariant ["diabetes"] ⟨["E11.9"], []⟩
    (by with_unfolding_all decide) "E11.9"
    (Or.inl (by with_unfolding_all decide))

/-- Claim C10: the batch coordinator processes exactly the directory entries
whose names end in ".hl7"; running the batch over any listing gives the very
same result — rejection counter, per-claim output lines and summary — as
running it over only the ".hl7" entries, so every other entry is silently
skipped and contributes nothing. -/
theorem only_hl7_files_processed (files : List ClaimEnv) :
    processBatch files = processBatch (processedClaims files) := by
  unfold processBatch
  rw [runBatchLoop_filter files 0 [] []]

end ClaimsPay
